import Mathlib

/-!
Verification of the Cloudflare-worker backend in `src/index.js` of the
finalize-landing-page repository: the pricing engine (`calculatePricing`),
the form validation (`validateEstimateForm` with `isValidEmail` and
`isValidUrl`), the submission handler (`handleSubmitRequest`) and the
top-level router (`fetch` of the default export).

The JavaScript code is embedded shallowly: JSON/JS values that the handler
inspects dynamically are modelled by the inductive `JVal`; the pricing
accumulators by `JSNum` (an exact integer, `NaN`, or the non-numeric
string produced when a catalog lookup hits an inherited `Object.prototype`
member — see `JSNum` and `objectPrototypeKeys`); exceptions by `Except`.
-/

/-- A JSON-ish JavaScript value, as produced by `request.json()`:
`undefined` (absent field), `null`, booleans, numbers, strings and arrays.
(Nested plain objects never reach the logic under verification and are
omitted.) -/
inductive JVal where
  | undefined
  | nullv
  | bool (b : Bool)
  | num (n : Int)
  | str (s : String)
  | arr (xs : List JVal)

/-- JavaScript truthiness of a `JVal`: `undefined`, `null`, `false`, `0`
and `""` are falsy; every array (even empty) is truthy. -/
def jsTruthy : JVal → Bool
  | .undefined => false
  | .nullv => false
  | .bool b => b
  | .num n => n != 0
  | .str s => s != ""
  | .arr _ => true

mutual
/-- JavaScript `ToString` coercion of a value used as a property key
(`PRICING.features[featureName]` coerces a non-string `featureName`). -/
def jsToString : JVal → String
  | .undefined => "undefined"
  | .nullv => "null"
  | .bool b => cond b "true" "false"
  | .num n => toString n
  | .str s => s
  | .arr xs => jsArrJoin xs

/-- `Array.prototype.toString`: elements joined by commas. -/
def jsArrJoin : List JVal → String
  | [] => ""
  | [v] => jsElemString v
  | v :: rest => jsElemString v ++ "," ++ jsArrJoin rest
termination_by structural l => l

/-- An element inside an array join renders like `jsToString`, except that
`undefined` and `null` render as the empty string. -/
def jsElemString : JVal → String
  | .undefined => ""
  | .nullv => ""
  | .bool b => cond b "true" "false"
  | .num n => toString n
  | .str s => s
  | .arr xs => jsArrJoin xs
termination_by structural v => v
end

/-- The `.length` property as read by `selectedFeatures.length`:
arrays and strings have a numeric length; on any other value the property
is `undefined` (and `undefined >= 3` is false). -/
def jsLength : JVal → Option Int
  | .arr xs => some xs.length
  | .str s => some s.length
  | _ => none

/-! ## Pricing configuration (`PRICING` in `src/index.js`) -/

/-- The own properties of the `PRICING.features` object literal, as a
price table (0 on a name that is not an own property; no catalog price is
0).  The full JavaScript lookup `PRICING.features[name]`, which also
traverses `Object.prototype`, is `PRICING_features_lookup` below. -/
def PRICING_features : String → Nat
  | "Authentication" => 100
  | "Payments" => 100
  | "SaaS Subscriptions" => 100
  | "File Uploads" => 100
  | "Notifications" => 100
  | _ => 0

/-- The own properties of the `PRICING.services` object literal (see
`PRICING_features`). -/
def PRICING_services : String → Nat
  | "Security Audit & Fixes" => 150
  | "UI/UX Review" => 150
  | "Deploy to Production" => 100
  | _ => 0

/-- The property keys of `Object.prototype`: looking any of these up on a
plain object literal that does not shadow them yields an inherited
member — a function, except `__proto__`, whose getter returns
`Object.prototype` itself.  All of them are truthy and non-numeric. -/
def objectPrototypeKeys : List String :=
  ["constructor", "hasOwnProperty", "isPrototypeOf", "propertyIsEnumerable",
   "toLocaleString", "toString", "valueOf", "__proto__",
   "__defineGetter__", "__defineSetter__", "__lookupGetter__",
   "__lookupSetter__"]

/-- Result of the property read `obj[key]` on a plain object literal: an
own catalog price, an inherited truthy non-numeric `Object.prototype`
member, or `undefined`. -/
inductive Lookup where
  | own (price : Nat)
  | inherited
  | missing
deriving Repr, DecidableEq

/-- `PRICING.features[featureName]`: the own property when present,
otherwise the inherited `Object.prototype` member for its keys, otherwise
`undefined`. -/
def PRICING_features_lookup (name : String) : Lookup :=
  if PRICING_features name ≠ 0 then .own (PRICING_features name)
  else if objectPrototypeKeys.contains name then .inherited
  else .missing

/-- `PRICING.services[serviceName]` (see `PRICING_features_lookup`). -/
def PRICING_services_lookup (name : String) : Lookup :=
  if PRICING_services name ≠ 0 then .own (PRICING_services name)
  else if objectPrototypeKeys.contains name then .inherited
  else .missing

def PRICING_customRequestBase : Int := 250

def PRICING_featureDiscountThreshold : Nat := 3

def PRICING_featureDiscountRate : ℚ := 1 / 10

/-- `Math.round`: round to nearest, halves toward +∞ (`⌊x + 1/2⌋`). -/
def jsMathRound (x : ℚ) : Int := ⌊x + 1 / 2⌋

/-- `Math.round(n * 0.10)` for an integer `n`, as exact integer
arithmetic: `⌊n/10 + 1/2⌋ = ⌊(n+5)/10⌋`.  (`mathRoundTenth_eq` below
proves it equal to the rational formulation `jsMathRound (n * (1/10))`;
every numeric `featuresTotal` is a sum of catalog prices, i.e. a multiple
of 100, on which the IEEE-double computation of the source also agrees
exactly.) -/
def mathRoundTenth (n : Int) : Int := (n + 5) / 10

/-- The value of a JavaScript numeric accumulator in `calculatePricing`:
an exact integer, `NaN`, or a non-numeric string.  The string arises from
`featuresTotal += price` / `total += price` when `price` is an inherited
`Object.prototype` member: `+` then concatenates (e.g.
`"0function toString() { [native code] }"`).  Its exact text is
engine-formatted and is consumed only by further concatenation (which
keeps it a non-numeric string) and by `ToNumber` (which yields `NaN`), so
it is abstracted as the single constructor `corruptStr`. -/
inductive JSNum where
  | num (n : Int)
  | nan
  | corruptStr
deriving Repr, DecidableEq

/-- `acc + p` for a catalog price `p`: integer addition; `NaN` propagates;
a non-numeric string concatenates and stays a non-numeric string. -/
def jsAddNat (acc : JSNum) (p : Nat) : JSNum :=
  match acc with
  | .num n => .num (n + p)
  | .nan => .nan
  | .corruptStr => .corruptStr

/-- `acc + p` for the integer custom-request base. -/
def jsAddInt (acc : JSNum) (p : Int) : JSNum :=
  match acc with
  | .num n => .num (n + p)
  | .nan => .nan
  | .corruptStr => .corruptStr

/-- `acc + m` where `m` is an inherited `Object.prototype` member: both
operands coerce to strings, so the result is always a non-numeric
string. -/
def jsAddInherited (_ : JSNum) : JSNum := .corruptStr

/-- `Math.round(acc * 0.10)`: exact on integers; `NaN * 0.1` and
`ToNumber(non-numeric string) * 0.1` are `NaN`, and `Math.round(NaN)` is
`NaN`. -/
def jsRoundTenth : JSNum → JSNum
  | .num n => .num (mathRoundTenth n)
  | _ => .nan

/-- `a - b`: integer subtraction on numbers; any `NaN` or string operand
coerces via `ToNumber` and yields `NaN`. -/
def jsSub : JSNum → JSNum → JSNum
  | .num a, .num b => .num (a - b)
  | _, _ => .nan

/-- The pricing result `{ total, discount }` returned by
`calculatePricing`. -/
structure PricingResult where
  total : JSNum
  discount : JSNum
deriving Repr, DecidableEq

/-- The body of the features `forEach` loop:
`const price = PRICING.features[featureName]; if (price) { featuresTotal
+= price; total += price; }` — an own price is truthy iff nonzero, an
inherited member is truthy and corrupts the accumulator, `undefined` is
falsy and skips.  (`featuresTotal` and `total` both start at 0 and receive
identical updates in this loop, so one accumulator models both.) -/
def featuresFoldStep (acc : JSNum) (v : JVal) : JSNum :=
  match PRICING_features_lookup (jsToString v) with
  | .own price => if price ≠ 0 then jsAddNat acc price else acc
  | .inherited => jsAddInherited acc
  | .missing => acc

/-- The body of the services `forEach` loop (updates `total` only). -/
def servicesFoldStep (acc : JSNum) (v : JVal) : JSNum :=
  match PRICING_services_lookup (jsToString v) with
  | .own price => if price ≠ 0 then jsAddNat acc price else acc
  | .inherited => jsAddInherited acc
  | .missing => acc

/-- `calculatePricing(selectedFeatures, selectedServices, hasCustomRequest)`.

Faithful to the statement order of the source: sum the looked-up feature
entries (only for array inputs, skipping falsy lookups), then — inside the
same `if` — compute the discount and subtract it when the input is truthy
and its `.length` is ≥ 3, add the service entries, add the custom-request
base when the flag is truthy.

On catalog inputs every value stays an exact integer (`featuresTotal` is a
multiple of 100, on which the IEEE-double `Math.round(featuresTotal *
0.10)` agrees exactly with `mathRoundTenth`); a name colliding with an
inherited `Object.prototype` member corrupts the accumulators as described
at `JSNum`. -/
def calculatePricing (selectedFeatures selectedServices hasCustomRequest : JVal) :
    PricingResult :=
  let featuresTotal : JSNum :=
    match selectedFeatures with
    | .arr xs => xs.foldl featuresFoldStep (.num 0)
    | _ => .num 0
  let total₁ : JSNum := featuresTotal
  let lenOK : Bool :=
    jsTruthy selectedFeatures &&
      (match jsLength selectedFeatures with
       | some n => n ≥ (PRICING_featureDiscountThreshold : Int)
       | none => false)
  let discount : JSNum :=
    if lenOK then jsRoundTenth featuresTotal else .num 0
  let total₂ : JSNum := if lenOK then jsSub total₁ discount else total₁
  let total₃ : JSNum :=
    match selectedServices with
    | .arr xs => xs.foldl servicesFoldStep total₂
    | _ => total₂
  let total₄ : JSNum :=
    if jsTruthy hasCustomRequest then jsAddInt total₃ PRICING_customRequestBase
    else total₃
  { total := total₄, discount := discount }

/-- A list of names none of which collides with an inherited
`Object.prototype` key (so every catalog miss really reads `undefined`). -/
def avoidsObjectPrototype (names : List String) : Bool :=
  names.all (fun n => !objectPrototypeKeys.contains n)

/-! Specification-side clean sums, used to state the pricing claims. -/

/-- Sum of catalog unit prices of a list of feature names (an unrecognised
name contributes its miss price 0). -/
def specFeatureSum (names : List String) : Int :=
  (names.map fun n => (PRICING_features n : Int)).sum

/-- Sum of catalog unit prices of a list of service names. -/
def specServiceSum (names : List String) : Int :=
  (names.map fun n => (PRICING_services n : Int)).sum

/-! ## Email validation (`isValidEmail`) -/

/-- The JavaScript regex class `\s` (whitespace), as used in the email
regex `/^[^\s@]+@[^\s@]+\.[^\s@]+$/`. -/
def jsRegexSpace (c : Char) : Bool :=
  c = ' ' || c = '\t' || c = '\n' || c = '\u000b' || c = '\u000c' || c = '\r' ||
  c = ' ' || c = ' ' || (' ' ≤ c && c ≤ ' ') ||
  c = ' ' || c = ' ' || c = ' ' || c = ' ' ||
  c = '　' || c = '﻿'

/-- JavaScript `String.prototype.trim`: strip the WhiteSpace and
LineTerminator characters (the same set as the regex class `\s`) from both
ends. -/
def jsTrim (s : String) : String :=
  String.mk (((s.toList.dropWhile jsRegexSpace).reverse.dropWhile
    jsRegexSpace).reverse)

/-- Split a character list at every occurrence of `sep` (the semantics of
`String.splitOn` for a one-character separator). -/
def splitListOn (sep : Char) : List Char → List (List Char)
  | [] => [[]]
  | c :: cs =>
    if c = sep then [] :: splitListOn sep cs
    else
      match splitListOn sep cs with
      | h :: t => (c :: h) :: t
      | [] => [[c]]

/-- `isValidEmail(email)`: the regex `/^[^\s@]+@[^\s@]+\.[^\s@]+$/` matches
a string iff it contains exactly one `@`, the part before it is a nonempty
run of non-space characters, and the part after it is a run of non-space
characters containing a `.` that is neither its first nor its last
character. -/
def isValidEmail (email : String) : Bool :=
  match splitListOn '@' email.toList with
  | [localPart, domain] =>
    !localPart.isEmpty && localPart.all (fun c => !jsRegexSpace c) &&
    domain.all (fun c => !jsRegexSpace c) &&
    ((domain.drop 1).dropLast.contains '.')
  | _ => false

/-! ## URL validation (`isValidUrl`)

`isValidUrl` calls the platform's WHATWG `URL` constructor and reports
whether it throws.  The constructor is modelled here from the WHATWG URL
standard: the input is stripped of surrounding C0-control/space characters
and of all tabs and newlines; an absolute URL must begin with a scheme
(`[a-zA-Z][a-zA-Z0-9+.-]*:`); the special schemes http, https, ws, wss and
ftp additionally require a nonempty valid host; `file` and non-special
schemes (such as `mailto:` or `data:`) do not require a host, and a
non-special URL without an authority (`//`) never fails.  Exotic host
validation (IDNA, percent-decoding, full IPv6 syntax) is approximated by a
forbidden-character check. -/

def urlTabOrNewline (c : Char) : Bool := c = '\t' || c = '\n' || c = '\r'

def urlC0OrSpace (c : Char) : Bool := c ≤ ' '

def schemeStartChar (c : Char) : Bool := c.isAlpha

def schemeChar (c : Char) : Bool :=
  c.isAlphanum || c = '+' || c = '-' || c = '.'

/-- ASCII lowercasing, as URL scheme normalisation applies it. -/
def asciiToLower (c : Char) : Char :=
  if 'A' ≤ c && c ≤ 'Z' then Char.ofNat (c.toNat + 32) else c

/-- Consume scheme characters until a `:`; fail at the end of input or at a
non-scheme character. -/
def takeScheme (acc : List Char) : List Char → Option (String × List Char)
  | [] => none
  | c :: cs =>
    if c = ':' then some (String.mk (acc.reverse.map asciiToLower), cs)
    else if schemeChar c then takeScheme (c :: acc) cs
    else none

/-- Split an absolute URL into its (lowercased) scheme and the remainder
after the `:`. -/
def splitScheme : List Char → Option (String × List Char)
  | [] => none
  | c :: cs => if schemeStartChar c then takeScheme [c] cs else none

def forbiddenHostChar (c : Char) : Bool :=
  c = '\x00' || c = '\t' || c = '\n' || c = '\r' || c = ' ' || c = '#' ||
  c = '/' || c = ':' || c = '<' || c = '>' || c = '?' || c = '@' ||
  c = '[' || c = '\\' || c = ']' || c = '^' || c = '|'

/-- The host-port part of an authority: everything after the last `@`. -/
def afterLastAt (cs : List Char) : List Char :=
  (cs.reverse.takeWhile (fun c => c ≠ '@')).reverse

/-- Validity of a host[:port] string.  A bracketed host needs a closing
`]`; otherwise the host may contain no forbidden character and the port (if
a `:` is present) only digits.  `requireNonempty` is set for special
schemes, whose host must be nonempty. -/
def hostPortOK (requireNonempty : Bool) (hp : List Char) : Bool :=
  match hp with
  | '[' :: rest =>
    let bracketed := rest.takeWhile (fun c => c ≠ ']')
    let after := rest.drop (bracketed.length + 1)
    rest.contains ']' &&
      (after.isEmpty || (after.head? = some ':' && (after.drop 1).all Char.isDigit))
  | _ =>
    let host := hp.takeWhile (fun c => c ≠ ':')
    let port := hp.drop (host.length + 1)
    (!requireNonempty || !host.isEmpty) &&
    host.all (fun c => !forbiddenHostChar c) &&
    port.all Char.isDigit

/-- Input preprocessing of the URL parser: strip surrounding
C0-control/space characters, remove all tabs and newlines. -/
def urlStrip (url : String) : List Char :=
  (((url.toList.dropWhile urlC0OrSpace).reverse.dropWhile
      urlC0OrSpace).reverse).filter (fun c => !urlTabOrNewline c)

/-- Success predicate of `new URL(url)` (no base). -/
def urlCanParse (url : String) : Bool :=
  match splitScheme (urlStrip url) with
  | none => false
  | some (scheme, rest) =>
    if scheme = "http" || scheme = "https" || scheme = "ws" || scheme = "wss" ||
        scheme = "ftp" then
      let afterSlashes := rest.dropWhile (fun c => c = '/' || c = '\\')
      let auth := afterSlashes.takeWhile
        (fun c => !(c = '/' || c = '\\' || c = '?' || c = '#'))
      hostPortOK true (afterLastAt auth)
    else if scheme = "file" then
      true
    else
      match rest with
      | '/' :: '/' :: more =>
        let auth := more.takeWhile (fun c => !(c = '/' || c = '?' || c = '#'))
        hostPortOK false (afterLastAt auth)
      | _ => true

/-- `isValidUrl(url)`: `try { new URL(url); return true } catch { return
false }`. -/
def isValidUrl (url : String) : Bool := urlCanParse url

/-- Written from the spec's words, for comparison with the code: "must
parse as a well-formed absolute URL (scheme + host)" — a scheme is present
and the URL has a nonempty host component. -/
def specUrlHasSchemeAndHost (url : String) : Bool :=
  match splitScheme (urlStrip url) with
  | none => false
  | some (scheme, rest) =>
    if scheme = "http" || scheme = "https" || scheme = "ws" || scheme = "wss" ||
        scheme = "ftp" then
      let afterSlashes := rest.dropWhile (fun c => c = '/' || c = '\\')
      let auth := afterSlashes.takeWhile
        (fun c => !(c = '/' || c = '\\' || c = '?' || c = '#'))
      hostPortOK true (afterLastAt auth)
    else
      match rest with
      | '/' :: '/' :: more =>
        let auth := more.takeWhile (fun c => !(c = '/' || c = '?' || c = '#'))
        let hp := afterLastAt auth
        !(hp.takeWhile (fun c => c ≠ ':')).isEmpty && hostPortOK false hp
      | _ => false

/-! ## Form validation (`validateEstimateForm`) -/

/-- The submission payload as read off the parsed JSON body: each field the
handler inspects, as a dynamic `JVal` (`.undefined` models an absent field, so
the empty body `{}` is the default payload). -/
structure Payload where
  appUrl : JVal := .undefined
  platform : JVal := .undefined
  selectedFeatures : JVal := .undefined
  selectedServices : JVal := .undefined
  hasCustomRequest : JVal := .undefined
  customRequestText : JVal := .undefined
  email : JVal := .undefined
  additionalContext : JVal := .undefined
  timestamp : JVal := .undefined

/-- `Array.isArray`. -/
def isArray : JVal → Bool
  | .arr _ => true
  | _ => false

/-- The result object `{ isValid, errors }` of `validateEstimateForm`. -/
structure ValidationResult where
  isValid : Bool
  errors : List String
deriving Repr, DecidableEq

/-- The rule `// Required: App URL`: the required message when `appUrl` is
falsy, not a string, or blank after trimming; otherwise the format message
when `new URL` rejects it. -/
def appUrlErrors (v : JVal) : List String :=
  match v with
  | .str s =>
    if !jsTruthy (.str s) || jsTrim s = "" then ["App URL is required"]
    else if !isValidUrl s then ["App URL must be a valid URL"]
    else []
  | _ => ["App URL is required"]

/-- The rule `// Required: Email` (same shape as the App-URL rule, with the
regex check). -/
def emailErrors (v : JVal) : List String :=
  match v with
  | .str s =>
    if !jsTruthy (.str s) || jsTrim s = "" then ["Email is required"]
    else if !isValidEmail s then ["Email must be a valid email address"]
    else []
  | _ => ["Email is required"]

/-- `Array.isArray(v) && v.length > 0`, as in `hasFeatures`/`hasServices`. -/
def nonemptyArray : JVal → Bool
  | .arr xs => !xs.isEmpty
  | _ => false

/-- The rule `// At least one selection required`: `hasCustomRequest` is
compared with strict equality `=== true`. -/
def selectionErrors (features services custom : JVal) : List String :=
  let hasFeatures := nonemptyArray features
  let hasServices := nonemptyArray services
  let hasCustom : Bool := match custom with | .bool true => true | _ => false
  if !hasFeatures && !hasServices && !hasCustom then
    ["At least one service must be selected"]
  else []

/-- The rule `// Validate arrays` for `selectedFeatures`. -/
def featuresArrayErrors (v : JVal) : List String :=
  if jsTruthy v && !isArray v then ["Selected features must be an array"]
  else []

/-- The rule `// Validate arrays` for `selectedServices`. -/
def servicesArrayErrors (v : JVal) : List String :=
  if jsTruthy v && !isArray v then ["Selected services must be an array"]
  else []

/-- The rule `// Validate custom request text if custom request is
selected`.  It evaluates `customRequestText.trim()` when `hasCustomRequest`
and `customRequestText` are both truthy; if `customRequestText` is then not
a string, the property call throws a `TypeError`, modelled as `.error ()`
(`appUrl` and `email` are protected by `typeof` guards before their
`.trim()` calls; `customRequestText` is not). -/
def customRequestErrors (flag text : JVal) : Except Unit (List String) :=
  if jsTruthy flag then
    if !jsTruthy text then
      .ok ["Custom request description is required when custom request is selected"]
    else
      match text with
      | .str s =>
        .ok (if jsTrim s = "" then
          ["Custom request description is required when custom request is selected"]
        else [])
      | _ => .error ()
  else .ok []

/-- `validateEstimateForm(data)`: each rule appends its messages to
`errors` in source order; a `TypeError` thrown by the custom-request rule
propagates out as `.error ()`. -/
def validateEstimateForm (data : Payload) : Except Unit ValidationResult :=
  match customRequestErrors data.hasCustomRequest data.customRequestText with
  | .error e => .error e
  | .ok customErrs =>
    let errors :=
      appUrlErrors data.appUrl ++ emailErrors data.email ++
      selectionErrors data.selectedFeatures data.selectedServices
        data.hasCustomRequest ++
      featuresArrayErrors data.selectedFeatures ++
      servicesArrayErrors data.selectedServices ++ customErrs
    .ok { isValid := errors.isEmpty, errors := errors }

/-! ## Submission handler (`handleSubmitRequest`) -/

/-- Outcome of `await request.json()`: a parsed body, or a thrown
`SyntaxError` on malformed JSON. -/
inductive BodyParse where
  | ok (data : Payload)
  | syntaxError

/-- The worker environment bindings the handler reads.  Each is a string
or absent; the code tests them with JavaScript truthiness
(`!env.AIRTABLE_API_KEY`), so an empty string counts as missing. -/
structure Env where
  AIRTABLE_API_KEY : Option String := none
  AIRTABLE_BASE_ID : Option String := none
  AIRTABLE_TABLE_NAME : Option String := none

def envTruthy : Option String → Bool
  | some s => s ≠ ""
  | none => false

/-- Outcome of the external store call
`base(tableName).create([{ fields: record }])`: success (exactly one
record created), an Airtable error carrying a `statusCode` (no record
created), or any other thrown error (no record created).  Per the store
contract there is no partial write: a throwing `create` persists
nothing. -/
inductive StoreOutcome where
  | created
  | airtableError (statusCode : Nat) (message : String)
  | otherError

/-- A handler response together with the externally observable store
effect: HTTP status, `success` flag, `error` string, `errors` list,
whether `create` was called, and how many records were written. -/
structure HResp where
  status : Nat
  success : Bool
  error : Option String
  errors : List String
  storeAttempted : Bool
  recordsWritten : Nat
deriving Repr, DecidableEq

/-- `handleSubmitRequest(request, env)`.  Mirrors the source's control
flow: method gate, JSON parse, validation (whose thrown `TypeError`
reaches the catch block and — being neither a `SyntaxError` nor an object
with `statusCode` — yields the generic 500), config checks for API key and
base id, pricing, the single `create` call, and the catch block's
three-way error dispatch. -/
def handleSubmitRequest (method : String) (body : BodyParse) (env : Env)
    (store : StoreOutcome) : HResp :=
  if method ≠ "POST" then
    { status := 405, success := false, error := some "Method not allowed",
      errors := [], storeAttempted := false, recordsWritten := 0 }
  else
    match body with
    | .syntaxError =>
      { status := 400, success := false,
        error := some "Invalid JSON in request body", errors := [],
        storeAttempted := false, recordsWritten := 0 }
    | .ok data =>
      match validateEstimateForm data with
      | .error _ =>
        { status := 500, success := false,
          error := some "Internal server error", errors := [],
          storeAttempted := false, recordsWritten := 0 }
      | .ok validation =>
        if !validation.isValid then
          { status := 400, success := false, error := some "Validation failed",
            errors := validation.errors, storeAttempted := false,
            recordsWritten := 0 }
        else if !envTruthy env.AIRTABLE_API_KEY then
          { status := 500, success := false,
            error := some "Server configuration error", errors := [],
            storeAttempted := false, recordsWritten := 0 }
        else if !envTruthy env.AIRTABLE_BASE_ID then
          { status := 500, success := false,
            error := some "Server configuration error", errors := [],
            storeAttempted := false, recordsWritten := 0 }
        else
          match store with
          | .created =>
            { status := 200, success := true, error := none, errors := [],
              storeAttempted := true, recordsWritten := 1 }
          | .airtableError _ _ =>
            { status := 500, success := false,
              error := some "Failed to save to database", errors := [],
              storeAttempted := true, recordsWritten := 0 }
          | .otherError =>
            { status := 500, success := false,
              error := some "Internal server error", errors := [],
              storeAttempted := true, recordsWritten := 0 }

/-! ## Router (`fetch` of the default export) -/

/-- A top-level worker response: the CORS preflight 204, a JSON response
from the submission handler, or a redirect. -/
inductive WResp where
  | preflight
  | api (r : HResp)
  | redirect (status : Nat) (location : String)
deriving DecidableEq, Repr

/-- `fetch(request, env, ctx)`: OPTIONS requests short-circuit to a 204
preflight response; the path `/api/submit-request` dispatches to
`handleSubmitRequest`; every other path gets
`Response.redirect(url.origin + "/404", 301)`. -/
def workerFetch (method path origin : String) (body : BodyParse) (env : Env)
    (store : StoreOutcome) : WResp :=
  if method = "OPTIONS" then
    .preflight
  else if path = "/api/submit-request" then
    .api (handleSubmitRequest method body env store)
  else
    .redirect 301 (origin ++ "/404")


/-! ## Lemmas: the pricing engine on lists of name strings -/

/-- `mathRoundTenth` agrees with the rational reading of
`Math.round(n * featureDiscountRate)`. -/
theorem mathRoundTenth_eq (n : Int) :
    mathRoundTenth n = jsMathRound ((n : ℚ) * PRICING_featureDiscountRate) := by
  unfold mathRoundTenth jsMathRound PRICING_featureDiscountRate
  have h : (n : ℚ) * (1 / 10) + 1 / 2 = ((n + 5 : ℤ) : ℚ) / ((10 : ℕ) : ℚ) := by
    push_cast
    ring
  rw [h, Rat.floor_intCast_div_natCast]
  norm_num

/-- The features loop computes the catalog sum when no name collides with
an inherited `Object.prototype` key: a catalog hit adds its price, any
other miss reads `undefined` and adds 0. -/
theorem featFold_eq (xs : List String) (acc : Int)
    (hx : avoidsObjectPrototype xs = true) :
    List.foldl featuresFoldStep (.num acc) (xs.map .str)
      = .num (acc + specFeatureSum xs) := by
  induction xs generalizing acc with
  | nil => simp [specFeatureSum]
  | cons x xs ih =>
    simp only [avoidsObjectPrototype, List.all_cons, Bool.and_eq_true,
      Bool.not_eq_true'] at hx
    obtain ⟨hx1, hx2⟩ := hx
    simp only [List.map_cons, List.foldl_cons]
    have hstep : featuresFoldStep (.num acc) (.str x)
        = .num (acc + PRICING_features x) := by
      unfold featuresFoldStep PRICING_features_lookup
      simp only [jsToString]
      have hx1m : x ∉ objectPrototypeKeys := by simpa using hx1
      by_cases h : PRICING_features x = 0
      · simp [h, hx1m]
      · simp [h, jsAddNat]
    rw [hstep, ih (acc + PRICING_features x) hx2]
    simp [specFeatureSum]
    ring

/-- The services loop computes the catalog sum on a numeric accumulator
when no name collides with an inherited `Object.prototype` key. -/
theorem servFold_eq (xs : List String) (acc : Int)
    (hx : avoidsObjectPrototype xs = true) :
    List.foldl servicesFoldStep (.num acc) (xs.map .str)
      = .num (acc + specServiceSum xs) := by
  induction xs generalizing acc with
  | nil => simp [specServiceSum]
  | cons x xs ih =>
    simp only [avoidsObjectPrototype, List.all_cons, Bool.and_eq_true,
      Bool.not_eq_true'] at hx
    obtain ⟨hx1, hx2⟩ := hx
    simp only [List.map_cons, List.foldl_cons]
    have hstep : servicesFoldStep (.num acc) (.str x)
        = .num (acc + PRICING_services x) := by
      unfold servicesFoldStep PRICING_services_lookup
      simp only [jsToString]
      have hx1m : x ∉ objectPrototypeKeys := by simpa using hx1
      by_cases h : PRICING_services x = 0
      · simp [h, hx1m]
      · simp [h, jsAddNat]
    rw [hstep, ih (acc + PRICING_services x) hx2]
    simp [specServiceSum]
    ring

/-- Closed form of `calculatePricing` on arrays of name strings that avoid
the inherited `Object.prototype` keys. -/
theorem calculatePricing_strs (fs ss : List String) (c : Bool)
    (hf : avoidsObjectPrototype fs = true)
    (hs : avoidsObjectPrototype ss = true) :
    calculatePricing (.arr (fs.map .str)) (.arr (ss.map .str)) (.bool c) =
      { total := .num (specFeatureSum fs
          - (if PRICING_featureDiscountThreshold ≤ fs.length then
              mathRoundTenth (specFeatureSum fs) else 0)
          + specServiceSum ss
          + (if c then PRICING_customRequestBase else 0)),
        discount := .num (if PRICING_featureDiscountThreshold ≤ fs.length then
          mathRoundTenth (specFeatureSum fs) else 0) } := by
  unfold calculatePricing
  simp only [jsTruthy, jsLength, List.length_map, featFold_eq fs 0 hf,
    Bool.true_and, decide_eq_true_eq, PRICING_featureDiscountThreshold,
    zero_add]
  have hcast : (((fs.length : Nat) : Int) ≥ ((3 : Nat) : Int)) ↔ 3 ≤ fs.length := by
    exact_mod_cast Iff.rfl
  by_cases h : 3 ≤ fs.length
  · simp only [hcast, h, if_true, jsRoundTenth, jsSub, servFold_eq, hs,
      PricingResult.mk.injEq]
    cases c <;> simp [jsAddInt]
  · simp only [hcast, h, if_false, servFold_eq, hs, PricingResult.mk.injEq]
    cases c <;> simp [jsAddInt]

/-! ## Claim theorems: pricing -/

/-- Counterexample for claim C1: "toString" is not a catalog feature, so
per the claim it should contribute 0 — but the source's lookup
`PRICING.features["toString"]` finds the inherited truthy
`Object.prototype.toString`, and `featuresTotal += price` turns the total
into a non-numeric string instead of 0. -/
theorem C1_prototype_counterexample :
    PRICING_features "toString" = 0
    ∧ (calculatePricing (.arr [.str "toString"]) (.arr [])
        (.bool false)).total = .corruptStr
    ∧ (calculatePricing (.arr [.str "toString"]) (.arr [])
        (.bool false)).total ≠ .num 0 := by
  refine ⟨rfl, rfl, ?_⟩
  decide

/-- Claim C1 as amended: for every input whose feature and service names
avoid the inherited `Object.prototype` keys, the returned total equals the
catalog sum of recognised features, minus the returned discount, plus the
catalog sum of recognised services, plus the fixed base 250 when the
custom flag is true; such unrecognised names contribute 0 without error
(a name colliding with an `Object.prototype` key instead corrupts the
total to a non-numeric value, see the counterexample); empty selections
with the flag false yield total 0, discount 0, and services = [Security
Audit & Fixes] with custom = true yields total 400, discount 0. -/
theorem C1_pricing_total :
    (∀ (fs ss : List String) (c : Bool),
      avoidsObjectPrototype fs = true → avoidsObjectPrototype ss = true →
      ∃ d : Int,
        (calculatePricing (.arr (fs.map .str)) (.arr (ss.map .str))
          (.bool c)).discount = .num d
        ∧ (calculatePricing (.arr (fs.map .str)) (.arr (ss.map .str))
            (.bool c)).total
          = .num (specFeatureSum fs - d + specServiceSum ss
              + (if c then PRICING_customRequestBase else 0)))
    ∧ (∀ (fs : List String) (name : String), PRICING_features name = 0 →
        specFeatureSum (fs ++ [name]) = specFeatureSum fs)
    ∧ (∀ (ss : List String) (name : String), PRICING_services name = 0 →
        specServiceSum (ss ++ [name]) = specServiceSum ss)
    ∧ calculatePricing (.arr []) (.arr []) (.bool false) = ⟨.num 0, .num 0⟩
    ∧ calculatePricing (.arr []) (.arr [.str "Security Audit & Fixes"])
        (.bool true) = ⟨.num 400, .num 0⟩ := by
  refine ⟨?_, ?_, ?_, by decide, by decide⟩
  · intro fs ss c hf hs
    refine ⟨if PRICING_featureDiscountThreshold ≤ fs.length then
        mathRoundTenth (specFeatureSum fs) else 0, ?_, ?_⟩
    · rw [calculatePricing_strs fs ss c hf hs]
    · rw [calculatePricing_strs fs ss c hf hs]
  · intro fs name h
    simp [specFeatureSum, h]
  · intro ss name h
    simp [specServiceSum, h]

/-- Witness for C1 at concrete prototype-free inputs. -/
theorem C1_pricing_total_witness :
    (∃ d : Int,
      (calculatePricing (.arr (["Authentication", "Bogus"].map .str))
        (.arr (["Security Audit & Fixes"].map .str)) (.bool true)).discount
        = .num d
      ∧ (calculatePricing (.arr (["Authentication", "Bogus"].map .str))
          (.arr (["Security Audit & Fixes"].map .str)) (.bool true)).total
        = .num (specFeatureSum ["Authentication", "Bogus"] - d
            + specServiceSum ["Security Audit & Fixes"]
            + (if true then PRICING_customRequestBase else 0)))
    ∧ PRICING_features "Bogus" = 0
    ∧ specFeatureSum (["Authentication"] ++ ["Bogus"])
        = specFeatureSum ["Authentication"] :=
  ⟨C1_pricing_total.1 ["Authentication", "Bogus"] ["Security Audit & Fixes"]
      true (by decide) (by decide),
    by decide,
    C1_pricing_total.2.1 ["Authentication"] "Bogus" (by decide)⟩

/-- Counterexample for claim C2: at ["x", "y", "toString"] the feature
count is 3 and the recognised subtotal is 0, so the claim demands
discount = round(0 × 0.10) = 0 — but the source computes
`Math.round("0function…" * 0.1) = NaN`. -/
theorem C2_prototype_counterexample :
    PRICING_featureDiscountThreshold
      ≤ (["x", "y", "toString"] : List String).length
    ∧ specFeatureSum ["x", "y", "toString"] = 0
    ∧ (calculatePricing (.arr (["x", "y", "toString"].map .str)) (.arr [])
        (.bool false)).discount = .nan
    ∧ JSNum.nan ≠ .num (mathRoundTenth 0) := by
  decide

/-- Claim C2 as amended: below 3 selected features the discount is 0 for
every input; at 3 or more features whose names (and service names) avoid
the inherited `Object.prototype` keys, the discount is
round(featureSubtotal × 0.10) rounded to the nearest integer and is
subtracted from the total (a colliding name instead yields NaN, see the
counterexample); three $100 features give total 270, discount 30. -/
theorem C2_discount_threshold :
    (∀ (fs ss : List String) (c : Bool),
      fs.length < PRICING_featureDiscountThreshold →
      (calculatePricing (.arr (fs.map .str)) (.arr (ss.map .str))
        (.bool c)).discount = .num 0)
    ∧ (∀ (fs ss : List String) (c : Bool),
      PRICING_featureDiscountThreshold ≤ fs.length →
      avoidsObjectPrototype fs = true → avoidsObjectPrototype ss = true →
      (calculatePricing (.arr (fs.map .str)) (.arr (ss.map .str))
          (.bool c)).discount
        = .num (jsMathRound ((specFeatureSum fs : ℚ)
            * PRICING_featureDiscountRate))
      ∧ (calculatePricing (.arr (fs.map .str)) (.arr (ss.map .str))
          (.bool c)).total
        = .num (specFeatureSum fs
            - jsMathRound ((specFeatureSum fs : ℚ)
                * PRICING_featureDiscountRate)
            + specServiceSum ss
            + (if c then PRICING_customRequestBase else 0)))
    ∧ calculatePricing
        (.arr [.str "Authentication", .str "Payments", .str "SaaS Subscriptions"])
        (.arr []) (.bool false) = ⟨.num 270, .num 30⟩ := by
  refine ⟨?_, ?_, by decide⟩
  · intro fs ss c h
    unfold calculatePricing
    simp only [jsTruthy, jsLength, List.length_map, Bool.true_and,
      decide_eq_true_eq, PRICING_featureDiscountThreshold] at h ⊢
    have hlt : ¬ 3 ≤ fs.length := Nat.not_le.mpr h
    simp [hlt]
  · intro fs ss c h hf hs
    rw [calculatePricing_strs fs ss c hf hs, if_pos h, ← mathRoundTenth_eq]
    exact ⟨rfl, rfl⟩

/-- Witness for C2 at concrete inputs. -/
theorem C2_discount_threshold_witness :
    (calculatePricing (.arr (([] : List String).map .str))
      (.arr (([] : List String).map .str)) (.bool false)).discount = .num 0
    ∧ (calculatePricing
        (.arr (["Authentication", "Payments", "SaaS Subscriptions"].map .str))
        (.arr (([] : List String).map .str)) (.bool false)).discount
      = .num (jsMathRound
          ((specFeatureSum
              ["Authentication", "Payments", "SaaS Subscriptions"] : ℚ)
            * PRICING_featureDiscountRate)) :=
  ⟨C2_discount_threshold.1 [] [] false (by decide),
    (C2_discount_threshold.2.1
      ["Authentication", "Payments", "SaaS Subscriptions"] [] false
      (by decide) (by decide) (by decide)).1⟩

/-- Counterexample for claim C9: at ["Authentication", "Payments",
"toString"] the raw count is 3 and the recognised subtotal 200, so the
claim demands discount = round(200 × 0.10) = 20 — but the inherited
`toString` member corrupts `featuresTotal` and the source's discount is
NaN. -/
theorem C9_prototype_counterexample :
    PRICING_featureDiscountThreshold
      ≤ (["Authentication", "Payments", "toString"] : List String).length
    ∧ specFeatureSum ["Authentication", "Payments", "toString"] = 200
    ∧ (calculatePricing
        (.arr (["Authentication", "Payments", "toString"].map .str)) (.arr [])
        (.bool false)).discount = .nan
    ∧ JSNum.nan
      ≠ .num (mathRoundTenth
          (specFeatureSum ["Authentication", "Payments", "toString"])) := by
  decide

/-- Claim C9 (implicit) as amended: the discount threshold compares the
raw length of the selectedFeatures list, counting unrecognised names,
while the feature subtotal sums only recognised catalog names; for every
list of at least 3 names avoiding the inherited `Object.prototype` keys,
the discount applies to the recognised subtotal (a colliding name instead
yields NaN, see the counterexample); [Authentication, Payments, Bogus]
yields featuresTotal 200, discount 20, total 180. -/
theorem C9_raw_length_discount :
    (∀ (fs ss : List String) (c : Bool),
      PRICING_featureDiscountThreshold ≤ fs.length →
      avoidsObjectPrototype fs = true →
      (calculatePricing (.arr (fs.map .str)) (.arr (ss.map .str))
        (.bool c)).discount = .num (mathRoundTenth (specFeatureSum fs)))
    ∧ calculatePricing (.arr [.str "Authentication", .str "Payments", .str "Bogus"])
        (.arr []) (.bool false) = ⟨.num 180, .num 20⟩ := by
  refine ⟨?_, by decide⟩
  intro fs ss c h hf
  unfold calculatePricing
  simp only [jsTruthy, jsLength, List.length_map, Bool.true_and,
    decide_eq_true_eq, PRICING_featureDiscountThreshold,
    featFold_eq fs 0 hf, zero_add] at h ⊢
  simp [h, jsRoundTenth]

/-- Witness for C9: three raw entries of which only two are in the
catalog still trigger the discount, applied to the recognised subtotal. -/
theorem C9_raw_length_discount_witness :
    (calculatePricing (.arr (["Authentication", "Payments", "Bogus"].map .str))
      (.arr (([] : List String).map .str)) (.bool false)).discount
      = .num (mathRoundTenth
          (specFeatureSum ["Authentication", "Payments", "Bogus"])) :=
  C9_raw_length_discount.1 ["Authentication", "Payments", "Bogus"] [] false
    (by decide) (by decide)

/-! ## Claim theorems: handler and router -/

/-- A concrete payload that passes validation (used by several claims). -/
def validSubmission : Payload :=
  { appUrl := .str "https://example.com", email := .str "user@example.com",
    selectedFeatures := .arr [.str "Authentication"] }

/-- A payload whose `customRequestText` is a truthy number while
`hasCustomRequest` is true (used by claim C10). -/
def numTextSubmission : Payload :=
  { appUrl := .str "https://example.com", email := .str "user@example.com",
    hasCustomRequest := .bool true, customRequestText := .num 5 }

/-- Claim C5: a submission never partially succeeds: the handler returns
200 iff exactly one record was created in the external store, and on every
non-200 response no record is written; a valid payload with missing store
configuration returns 500 with error "Server configuration error" before
any store call is attempted (`storeAttempted = false` in the response). -/
theorem C5_atomic_submission :
    (∀ (method : String) (body : BodyParse) (env : Env) (store : StoreOutcome),
      ((handleSubmitRequest method body env store).status = 200 ↔
        (handleSubmitRequest method body env store).recordsWritten = 1)
      ∧ ((handleSubmitRequest method body env store).status ≠ 200 →
        (handleSubmitRequest method body env store).recordsWritten = 0))
    ∧ (∀ store : StoreOutcome,
      handleSubmitRequest "POST" (.ok validSubmission)
        { AIRTABLE_API_KEY := none, AIRTABLE_BASE_ID := some "base" } store
        = ⟨500, false, some "Server configuration error", [], false, 0⟩) := by
  refine ⟨?_, ?_⟩
  · intro method body env store
    unfold handleSubmitRequest
    repeat' split
    all_goals simp
  · intro store
    rfl

/-- Witness for C5 at concrete inputs. -/
theorem C5_atomic_submission_witness :
    ((handleSubmitRequest "POST" (.ok validSubmission)
        { AIRTABLE_API_KEY := some "key", AIRTABLE_BASE_ID := some "base" }
        .created).status = 200 ↔
      (handleSubmitRequest "POST" (.ok validSubmission)
        { AIRTABLE_API_KEY := some "key", AIRTABLE_BASE_ID := some "base" }
        .created).recordsWritten = 1)
    ∧ (handleSubmitRequest "GET" (.ok {}) {} .created).recordsWritten = 0
    ∧ handleSubmitRequest "POST" (.ok validSubmission)
        { AIRTABLE_API_KEY := none, AIRTABLE_BASE_ID := some "base" } .created
      = ⟨500, false, some "Server configuration error", [], false, 0⟩ :=
  ⟨(C5_atomic_submission.1 "POST" (.ok validSubmission)
      { AIRTABLE_API_KEY := some "key", AIRTABLE_BASE_ID := some "base" }
      .created).1,
    (C5_atomic_submission.1 "GET" (.ok {}) {} .created).2 (by decide),
    C5_atomic_submission.2 .created⟩

/-- Claim C6: every POST to the submission route whose body is not
well-formed JSON yields 400 with the specific error "Invalid JSON in
request body", distinguished from the generic validation-failure 400
(error "Validation failed" with an errors list). -/
theorem C6_invalid_json :
    (∀ (env : Env) (store : StoreOutcome),
      handleSubmitRequest "POST" .syntaxError env store
        = ⟨400, false, some "Invalid JSON in request body", [], false, 0⟩)
    ∧ (∀ (data : Payload) (env : Env) (store : StoreOutcome)
        (r : ValidationResult),
      validateEstimateForm data = .ok r → r.isValid = false →
      (handleSubmitRequest "POST" (.ok data) env store).status = 400
      ∧ (handleSubmitRequest "POST" (.ok data) env store).error
          = some "Validation failed")
    ∧ (some "Invalid JSON in request body" : Option String)
        ≠ some "Validation failed" := by
  refine ⟨?_, ?_, by decide⟩
  · intro env store
    rfl
  · intro data env store r h hv
    simp [handleSubmitRequest, h, hv]

/-- Witness for C6 at concrete inputs. -/
theorem C6_invalid_json_witness :
    handleSubmitRequest "POST" .syntaxError {} .created
      = ⟨400, false, some "Invalid JSON in request body", [], false, 0⟩
    ∧ (handleSubmitRequest "POST" (.ok {}) {} .created).status = 400
    ∧ (handleSubmitRequest "POST" (.ok {}) {} .created).error
        = some "Validation failed" :=
  ⟨C6_invalid_json.1 {} .created,
    (C6_invalid_json.2.1 {} {} .created
      ⟨false, ["App URL is required", "Email is required",
        "At least one service must be selected"]⟩ rfl rfl).1,
    (C6_invalid_json.2.1 {} {} .created
      ⟨false, ["App URL is required", "Email is required",
        "At least one service must be selected"]⟩ rfl rfl).2⟩

/-- Claim C7: every request to the submission route whose method is not
POST gets status 405 with error "Method not allowed"; OPTIONS on any path
short-circuits to the 204 preflight response, and any other non-POST
method on the submission route reaches the handler's 405. -/
theorem C7_method_gate :
    (∀ (method : String) (body : BodyParse) (env : Env) (store : StoreOutcome),
      method ≠ "POST" →
      handleSubmitRequest method body env store
        = ⟨405, false, some "Method not allowed", [], false, 0⟩)
    ∧ (∀ (path origin : String) (body : BodyParse) (env : Env)
        (store : StoreOutcome),
      workerFetch "OPTIONS" path origin body env store = .preflight)
    ∧ (∀ (method origin : String) (body : BodyParse) (env : Env)
        (store : StoreOutcome),
      method ≠ "POST" → method ≠ "OPTIONS" →
      workerFetch method "/api/submit-request" origin body env store
        = .api ⟨405, false, some "Method not allowed", [], false, 0⟩) := by
  refine ⟨?_, ?_, ?_⟩
  · intro method body env store h
    unfold handleSubmitRequest
    rw [if_pos h]
  · intro path origin body env store
    unfold workerFetch
    rw [if_pos rfl]
  · intro method origin body env store hp ho
    unfold workerFetch handleSubmitRequest
    rw [if_neg ho, if_pos rfl, if_pos hp]

/-- Witness for C7: a GET request (the spec's example). -/
theorem C7_method_gate_witness :
    handleSubmitRequest "GET" (.ok {}) {} .created
      = ⟨405, false, some "Method not allowed", [], false, 0⟩
    ∧ workerFetch "OPTIONS" "/foo" "https://example.com" (.ok {}) {} .created
      = .preflight
    ∧ workerFetch "GET" "/api/submit-request" "https://example.com" (.ok {}) {}
        .created = .api ⟨405, false, some "Method not allowed", [], false, 0⟩ :=
  ⟨C7_method_gate.1 "GET" (.ok {}) {} .created (by decide),
    C7_method_gate.2.1 "/foo" "https://example.com" (.ok {}) {} .created,
    C7_method_gate.2.2 "GET" "https://example.com" (.ok {}) {} .created
      (by decide) (by decide)⟩

/-- Claim C8: every non-OPTIONS request whose path is not
/api/submit-request is answered with a 301 redirect to the /404 page on
the same origin. -/
theorem C8_redirect :
    ∀ (method path origin : String) (body : BodyParse) (env : Env)
      (store : StoreOutcome),
      method ≠ "OPTIONS" → path ≠ "/api/submit-request" →
      workerFetch method path origin body env store
        = .redirect 301 (origin ++ "/404") := by
  intro method path origin body env store hm hp
  unfold workerFetch
  rw [if_neg hm, if_neg hp]

/-- Witness for C8: POST to /foo redirects to /404 (the spec's example). -/
theorem C8_redirect_witness :
    workerFetch "POST" "/foo" "https://example.com" (.ok {}) {} .created
      = .redirect 301 "https://example.com/404" :=
  C8_redirect "POST" "/foo" "https://example.com" (.ok {}) {} .created
    (by decide) (by decide)

/-- Claim C10 (implicit): server-side validation is not total over
arbitrary JSON payloads — whenever `hasCustomRequest` is truthy and
`customRequestText` is a truthy non-string value, `validateEstimateForm`
throws a TypeError on `.trim()`, so the handler returns 500 "Internal
server error" instead of a 400 validation failure, with no record written
(`appUrl` and `email` are protected by typeof guards; `customRequestText`
is not). -/
theorem C10_custom_text_typeerror :
    (∀ d : Payload, jsTruthy d.hasCustomRequest = true →
      jsTruthy d.customRequestText = true →
      (∀ s : String, d.customRequestText ≠ .str s) →
      validateEstimateForm d = .error ())
    ∧ (∀ (env : Env) (store : StoreOutcome),
      handleSubmitRequest "POST" (.ok numTextSubmission) env store
        = ⟨500, false, some "Internal server error", [], false, 0⟩) := by
  refine ⟨?_, ?_⟩
  · intro d h1 h2 h3
    unfold validateEstimateForm customRequestErrors
    rw [if_pos h1, if_neg (by simp [h2])]
    cases hd : d.customRequestText with
    | str s => exact absurd hd (h3 s)
    | undefined => rfl
    | nullv => rfl
    | bool b => rfl
    | num n => rfl
    | arr xs => rfl
  · intro env store
    rfl

/-- Witness for C10: `customRequestText = 5` with the flag set. -/
theorem C10_custom_text_typeerror_witness :
    validateEstimateForm numTextSubmission = .error ()
    ∧ handleSubmitRequest "POST" (.ok numTextSubmission) {} .created
      = ⟨500, false, some "Internal server error", [], false, 0⟩ :=
  ⟨C10_custom_text_typeerror.1 numTextSubmission (by decide) (by decide)
      (fun s h => JVal.noConfusion h),
    C10_custom_text_typeerror.2 {} .created⟩

/-! ## Lemmas: decomposition of the validation error list -/

/-- Every message of the App-URL rule is one of its two fixed strings. -/
theorem appUrlErrors_mem (m : String) (v : JVal) (h : m ∈ appUrlErrors v) :
    m = "App URL is required" ∨ m = "App URL must be a valid URL" := by
  unfold appUrlErrors at h
  cases v <;> simp_all <;> split_ifs at h <;> simp_all

/-- Every message of the email rule is one of its two fixed strings. -/
theorem emailErrors_mem (m : String) (v : JVal) (h : m ∈ emailErrors v) :
    m = "Email is required" ∨ m = "Email must be a valid email address" := by
  unfold emailErrors at h
  cases v <;> simp_all <;> split_ifs at h <;> simp_all

/-- The selection rule only ever emits its fixed string. -/
theorem selectionErrors_mem (m : String) (f s c : JVal)
    (h : m ∈ selectionErrors f s c) :
    m = "At least one service must be selected" := by
  unfold selectionErrors at h
  dsimp only at h
  split_ifs at h <;> simp_all

/-- The features-array rule only ever emits its fixed string. -/
theorem featuresArrayErrors_mem (m : String) (v : JVal)
    (h : m ∈ featuresArrayErrors v) :
    m = "Selected features must be an array" := by
  unfold featuresArrayErrors at h
  split_ifs at h <;> simp_all

/-- The services-array rule only ever emits its fixed string. -/
theorem servicesArrayErrors_mem (m : String) (v : JVal)
    (h : m ∈ servicesArrayErrors v) :
    m = "Selected services must be an array" := by
  unfold servicesArrayErrors at h
  split_ifs at h <;> simp_all

/-- When the custom-request rule does not throw, it only ever emits its
fixed string. -/
theorem customRequestErrors_ok_mem (m : String) (f t : JVal) (ce : List String)
    (hce : customRequestErrors f t = .ok ce) (h : m ∈ ce) :
    m = "Custom request description is required when custom request is selected" := by
  unfold customRequestErrors at hce
  split_ifs at hce
  · cases hce
    simp_all
  · cases t <;> simp_all <;> cases hce <;> simp_all
  · cases hce
    simp_all

/-- A non-throwing validation returns exactly the concatenation of the
six rules' messages, in source order. -/
theorem validateEstimateForm_ok_errors (d : Payload) (r : ValidationResult)
    (h : validateEstimateForm d = .ok r) :
    ∃ ce, customRequestErrors d.hasCustomRequest d.customRequestText = .ok ce
      ∧ r.errors = appUrlErrors d.appUrl ++ emailErrors d.email ++
          selectionErrors d.selectedFeatures d.selectedServices
            d.hasCustomRequest ++
          featuresArrayErrors d.selectedFeatures ++
          servicesArrayErrors d.selectedServices ++ ce := by
  unfold validateEstimateForm at h
  cases hce : customRequestErrors d.hasCustomRequest d.customRequestText with
  | error e => rw [hce] at h; cases h
  | ok ce =>
    rw [hce] at h
    cases h
    exact ⟨ce, rfl, rfl⟩

/-- Membership in the returned error list decomposes rule by rule. -/
theorem mem_validateEstimateForm_errors (d : Payload) (r : ValidationResult)
    (h : validateEstimateForm d = .ok r) (m : String) :
    m ∈ r.errors ↔
      m ∈ appUrlErrors d.appUrl ∨ m ∈ emailErrors d.email ∨
      m ∈ selectionErrors d.selectedFeatures d.selectedServices
        d.hasCustomRequest ∨
      m ∈ featuresArrayErrors d.selectedFeatures ∨
      m ∈ servicesArrayErrors d.selectedServices ∨
      (∃ ce, customRequestErrors d.hasCustomRequest d.customRequestText = .ok ce
        ∧ m ∈ ce) := by
  obtain ⟨ce, hce, herr⟩ := validateEstimateForm_ok_errors d r h
  rw [herr]
  simp only [List.mem_append]
  constructor
  · rintro (((((h1 | h2) | h3) | h4) | h5) | h6)
    · exact Or.inl h1
    · exact Or.inr (Or.inl h2)
    · exact Or.inr (Or.inr (Or.inl h3))
    · exact Or.inr (Or.inr (Or.inr (Or.inl h4)))
    · exact Or.inr (Or.inr (Or.inr (Or.inr (Or.inl h5))))
    · exact Or.inr (Or.inr (Or.inr (Or.inr (Or.inr ⟨ce, hce, h6⟩))))
  · rintro (h1 | h2 | h3 | h4 | h5 | ⟨ce2, hce2, h6⟩)
    · exact Or.inl (Or.inl (Or.inl (Or.inl (Or.inl h1))))
    · exact Or.inl (Or.inl (Or.inl (Or.inl (Or.inr h2))))
    · exact Or.inl (Or.inl (Or.inl (Or.inr h3)))
    · exact Or.inl (Or.inl (Or.inr h4))
    · exact Or.inl (Or.inr h5)
    · rw [hce] at hce2
      cases hce2
      exact Or.inr h6

/-- A message distinct from every other rule's messages is in the returned
errors exactly when the App-URL rule emits it. -/
theorem mem_errors_iff_appUrl (d : Payload) (r : ValidationResult)
    (h : validateEstimateForm d = .ok r) (m : String)
    (hm1 : m ≠ "Email is required")
    (hm2 : m ≠ "Email must be a valid email address")
    (hm3 : m ≠ "At least one service must be selected")
    (hm4 : m ≠ "Selected features must be an array")
    (hm5 : m ≠ "Selected services must be an array")
    (hm6 : m ≠ "Custom request description is required when custom request is selected") :
    m ∈ r.errors ↔ m ∈ appUrlErrors d.appUrl := by
  rw [mem_validateEstimateForm_errors d r h]
  constructor
  · rintro (hm | hm | hm | hm | hm | ⟨ce, hce, hm⟩)
    · exact hm
    · rcases emailErrors_mem _ _ hm with h' | h'
      · exact absurd h' hm1
      · exact absurd h' hm2
    · exact absurd (selectionErrors_mem _ _ _ _ hm) hm3
    · exact absurd (featuresArrayErrors_mem _ _ hm) hm4
    · exact absurd (servicesArrayErrors_mem _ _ hm) hm5
    · exact absurd (customRequestErrors_ok_mem _ _ _ _ hce hm) hm6
  · exact Or.inl

/-- A message distinct from every other rule's messages is in the returned
errors exactly when the email rule emits it. -/
theorem mem_errors_iff_email (d : Payload) (r : ValidationResult)
    (h : validateEstimateForm d = .ok r) (m : String)
    (hm1 : m ≠ "App URL is required")
    (hm2 : m ≠ "App URL must be a valid URL")
    (hm3 : m ≠ "At least one service must be selected")
    (hm4 : m ≠ "Selected features must be an array")
    (hm5 : m ≠ "Selected services must be an array")
    (hm6 : m ≠ "Custom request description is required when custom request is selected") :
    m ∈ r.errors ↔ m ∈ emailErrors d.email := by
  rw [mem_validateEstimateForm_errors d r h]
  constructor
  · rintro (hm | hm | hm | hm | hm | ⟨ce, hce, hm⟩)
    · rcases appUrlErrors_mem _ _ hm with h' | h'
      · exact absurd h' hm1
      · exact absurd h' hm2
    · exact hm
    · exact absurd (selectionErrors_mem _ _ _ _ hm) hm3
    · exact absurd (featuresArrayErrors_mem _ _ hm) hm4
    · exact absurd (servicesArrayErrors_mem _ _ hm) hm5
    · exact absurd (customRequestErrors_ok_mem _ _ _ _ hce hm) hm6
  · exact fun hm => Or.inr (Or.inl hm)

/-- A message distinct from every other rule's messages is in the returned
errors exactly when the selection rule emits it. -/
theorem mem_errors_iff_selection (d : Payload) (r : ValidationResult)
    (h : validateEstimateForm d = .ok r) (m : String)
    (hm1 : m ≠ "App URL is required")
    (hm2 : m ≠ "App URL must be a valid URL")
    (hm3 : m ≠ "Email is required")
    (hm4 : m ≠ "Email must be a valid email address")
    (hm5 : m ≠ "Selected features must be an array")
    (hm6 : m ≠ "Selected services must be an array")
    (hm7 : m ≠ "Custom request description is required when custom request is selected") :
    m ∈ r.errors ↔
      m ∈ selectionErrors d.selectedFeatures d.selectedServices
        d.hasCustomRequest := by
  rw [mem_validateEstimateForm_errors d r h]
  constructor
  · rintro (hm | hm | hm | hm | hm | ⟨ce, hce, hm⟩)
    · rcases appUrlErrors_mem _ _ hm with h' | h'
      · exact absurd h' hm1
      · exact absurd h' hm2
    · rcases emailErrors_mem _ _ hm with h' | h'
      · exact absurd h' hm3
      · exact absurd h' hm4
    · exact hm
    · exact absurd (featuresArrayErrors_mem _ _ hm) hm5
    · exact absurd (servicesArrayErrors_mem _ _ hm) hm6
    · exact absurd (customRequestErrors_ok_mem _ _ _ _ hce hm) hm7
  · exact fun hm => Or.inr (Or.inr (Or.inl hm))

/-! ## Claim theorems: validation -/

/-- Claim C4: server-side validation is not fail-fast: every rule is
evaluated independently (a rule's message appears in the returned list
exactly when that rule's own condition triggers, whatever the other fields
are), and a POST to the submission route with body `{}` yields 400 whose
errors list contains the URL-required, email-required and
selection-required messages together. -/
theorem C4_validation_collects_all :
    (∀ (d : Payload) (r : ValidationResult), validateEstimateForm d = .ok r →
      ("App URL is required" ∈ r.errors ↔
        "App URL is required" ∈ appUrlErrors d.appUrl)
      ∧ ("Email is required" ∈ r.errors ↔
        "Email is required" ∈ emailErrors d.email)
      ∧ ("At least one service must be selected" ∈ r.errors ↔
        "At least one service must be selected" ∈
          selectionErrors d.selectedFeatures d.selectedServices
            d.hasCustomRequest))
    ∧ (∀ (origin : String) (env : Env) (store : StoreOutcome),
      workerFetch "POST" "/api/submit-request" origin (.ok {}) env store
        = .api ⟨400, false, some "Validation failed",
            ["App URL is required", "Email is required",
             "At least one service must be selected"], false, 0⟩) := by
  refine ⟨?_, ?_⟩
  · intro d r h
    exact ⟨mem_errors_iff_appUrl d r h _ (by decide) (by decide) (by decide)
        (by decide) (by decide) (by decide),
      mem_errors_iff_email d r h _ (by decide) (by decide) (by decide)
        (by decide) (by decide) (by decide),
      mem_errors_iff_selection d r h _ (by decide) (by decide) (by decide)
        (by decide) (by decide) (by decide) (by decide)⟩
  · intro origin env store
    rfl

/-- Witness for C4: the empty body. -/
theorem C4_validation_collects_all_witness :
    ("App URL is required"
        ∈ (ValidationResult.mk false
            ["App URL is required", "Email is required",
             "At least one service must be selected"]).errors ↔
      "App URL is required" ∈ appUrlErrors JVal.undefined)
    ∧ workerFetch "POST" "/api/submit-request" "https://example.com" (.ok {}) {}
        .created
      = .api ⟨400, false, some "Validation failed",
          ["App URL is required", "Email is required",
           "At least one service must be selected"], false, 0⟩ :=
  ⟨(C4_validation_collects_all.1 {}
      ⟨false, ["App URL is required", "Email is required",
        "At least one service must be selected"]⟩ rfl).1,
    C4_validation_collects_all.2 "https://example.com" {} .created⟩

/-- A payload whose appUrl has a scheme but no host and otherwise passes
every rule (claim C3). -/
def mailtoSubmission : Payload :=
  { appUrl := .str "mailto:test@example.com", email := .str "user@example.com",
    selectedFeatures := .arr [.str "Authentication"] }

/-- Counterexample for claim C3: `mailto:test@example.com` has a scheme
but no host, yet `new URL` accepts it and validation reports no error, so
"for every appUrl value lacking a scheme or a host, validation reports an
error" is false. -/
theorem C3_url_scheme_host_counterexample :
    isValidUrl "mailto:test@example.com" = true
    ∧ specUrlHasSchemeAndHost "mailto:test@example.com" = false
    ∧ validateEstimateForm mailtoSubmission = .ok ⟨true, []⟩ :=
  ⟨rfl, rfl, rfl⟩

/-- Claim C3 as amended: validation accepts the appUrl field exactly when
it is a string non-empty after trimming that the WHATWG URL constructor
parses; the constructor always requires a scheme, but requires a host only
for the special schemes, so hostless non-special URLs (mailto:) pass while
scheme-less strings and hostless special-scheme URLs (`http://`) fail. -/
theorem C3_url_validation_amended :
    (∀ (s : String) (d : Payload) (r : ValidationResult), d.appUrl = .str s →
      validateEstimateForm d = .ok r →
      (("App URL is required" ∉ r.errors
          ∧ "App URL must be a valid URL" ∉ r.errors)
        ↔ (jsTrim s ≠ "" ∧ urlCanParse s = true)))
    ∧ (∀ s : String, urlCanParse s = true →
        (splitScheme (urlStrip s)).isSome = true)
    ∧ urlCanParse "mailto:test@example.com" = true
    ∧ urlCanParse "example.com" = false
    ∧ urlCanParse "http://" = false
    ∧ urlCanParse "https://example.com" = true := by
  refine ⟨?_, ?_, rfl, rfl, rfl, rfl⟩
  · intro s d r hd h
    have h1 := mem_errors_iff_appUrl d r h "App URL is required" (by decide)
      (by decide) (by decide) (by decide) (by decide) (by decide)
    have h2 := mem_errors_iff_appUrl d r h "App URL must be a valid URL"
      (by decide) (by decide) (by decide) (by decide) (by decide) (by decide)
    rw [hd] at h1 h2
    rw [h1, h2]
    unfold appUrlErrors
    by_cases htrim : jsTrim s = ""
    · simp [htrim]
    · have hs : s ≠ "" := fun he => htrim (by rw [he]; rfl)
      by_cases hurlp : urlCanParse s = true
      · simp [htrim, hs, jsTruthy, isValidUrl, hurlp]
      · have hfalse : urlCanParse s = false := by
          simpa using hurlp
        simp [htrim, hs, jsTruthy, isValidUrl, hfalse]
  · intro s hp
    unfold urlCanParse at hp
    cases hsch : splitScheme (urlStrip s) with
    | none => rw [hsch] at hp; cases hp
    | some p => simp [hsch]

/-- Witness for the amended C3 at concrete inputs. -/
theorem C3_url_validation_amended_witness :
    (("App URL is required"
        ∉ (ValidationResult.mk true ([] : List String)).errors
      ∧ "App URL must be a valid URL"
        ∉ (ValidationResult.mk true ([] : List String)).errors)
      ↔ (jsTrim "mailto:test@example.com" ≠ ""
        ∧ urlCanParse "mailto:test@example.com" = true))
    ∧ (splitScheme (urlStrip "https://example.com")).isSome = true :=
  ⟨C3_url_validation_amended.1 "mailto:test@example.com" mailtoSubmission
      ⟨true, []⟩ rfl rfl,
    C3_url_validation_amended.2.1 "https://example.com" rfl⟩
